import Mathlib

/-!
# Managed-Position Lifecycle & Monitoring Engine — verification

Shallow embedding of `src/lib/services/positions.ts` (class
`PositionManagerService`) together with the request-validation schema of
`src/app/api/positions/managed/route.ts`.

Modelling conventions:
* JavaScript numbers are modelled as exact rationals (`ℚ`).
* The Prisma store is modelled by explicit state passing: an operation that
  fetches a record by id receives an `Option ManagedPosition` and returns the
  record as persisted after the call.  Every Prisma `update` also touches the
  `updated_at` column (`@updatedAt` in the schema), so each write takes a
  `now : Nat` clock argument.
* The Alpaca collaborators are oracles: the outcome of `placeOrder`,
  `closePosition` and `getSnapshot` is passed in as an `Except String _`
  value (`.error` = the awaited call threw).
* JavaScript truthiness of `x || y` on numbers (where `0`, `null` and
  `undefined` are falsy) is modelled by `jsOr` / `jsOrD` / `truthify`.
* `Order.filled_avg_price : Option ℚ` models the optional string field
  together with its `parseFloat`; `some p` stands for a present, non-empty
  price string parsing to `p`.
-/

/-- Order side, the `'buy' | 'sell'` union of `CreateManagedPositionParams`. -/
inductive Side where
  | buy
  | sell
deriving DecidableEq, Repr

/-- The `ManagedPositionStatus` union of `positions.ts`. -/
inductive ManagedPositionStatus where
  | active
  | monitoring
  | stop_loss_triggered
  | take_profit_triggered
  | closed
  | error
deriving DecidableEq, Repr

/-- The `ManagedPosition` entity (Prisma model / interface in `positions.ts`).
Timestamps are abstract clock ticks (`Nat`). -/
structure ManagedPosition where
  id : String
  symbol : String
  qty : ℚ
  entry_price : ℚ
  entry_order_id : Option String
  stop_loss_pct : ℚ
  take_profit_pct : ℚ
  stop_loss_price : ℚ
  take_profit_price : ℚ
  trailing_stop : Bool
  status : ManagedPositionStatus
  current_price : Option ℚ
  unrealized_pl : Option ℚ
  unrealized_plpc : Option ℚ
  closed_price : Option ℚ
  closed_reason : Option String
  exit_order_id : Option String
  created_at : Nat
  updated_at : Nat
  closed_at : Option Nat
deriving DecidableEq, Repr

/-- Parameters of `createManagedPosition` (`CreateManagedPositionParams`). -/
structure CreateManagedPositionParams where
  symbol : String
  qty : ℚ
  side : Side
  stopLossPct : ℚ
  takeProfitPct : ℚ
  trailingStop : Bool := false
deriving DecidableEq, Repr

/-- An Alpaca order as far as the position manager reads it: `order.id` and
the optional `filled_avg_price` (already parsed from its string form). -/
structure Order where
  id : String
  filled_avg_price : Option ℚ
deriving DecidableEq, Repr

/-- A market snapshot as far as the position manager reads it:
`latestTradeP` models `snapshot.latestTrade?.p` and `latestQuoteAp` models
`snapshot.latestQuote?.ap`. -/
structure Snapshot where
  latestTradeP : Option ℚ
  latestQuoteAp : Option ℚ
deriving DecidableEq, Repr

/-- JavaScript `a || b` on two optional numbers: `a` wins iff it is present
and nonzero (truthy). -/
def jsOr (a b : Option ℚ) : Option ℚ :=
  match a with
  | some p => if p = 0 then b else some p
  | none => b

/-- JavaScript `a || b` where `b` is a plain number. -/
def jsOrD (a : Option ℚ) (b : ℚ) : ℚ :=
  match a with
  | some p => if p = 0 then b else p
  | none => b

/-- Collapse a falsy value (`undefined` or `0`) to `none`; models the
`if (!currentPrice)` guard. -/
def truthify (a : Option ℚ) : Option ℚ :=
  match a with
  | some p => if p = 0 then none else some p
  | none => none

/-- `calculatePrices` of `positions.ts` (lines 147–164): stop-loss and
take-profit prices from the entry price, the percentages and the side. -/
def calculatePrices (entryPrice stopLossPct takeProfitPct : ℚ) (side : Side) :
    ℚ × ℚ :=
  match side with
  | Side.buy =>
      (entryPrice * (1 - stopLossPct / 100), entryPrice * (1 + takeProfitPct / 100))
  | Side.sell =>
      (entryPrice * (1 + stopLossPct / 100), entryPrice * (1 - takeProfitPct / 100))

/-- Observable side effects of `createManagedPosition`, in program order:
the gateway order placement, the fallback snapshot query, and the Prisma
`managedPosition.create`. -/
inductive CreateEff where
  | placeOrder (symbol : String) (qty : ℚ) (side : Side)
  | getSnapshot (symbol : String)
  | dbCreate (record : ManagedPosition)
deriving DecidableEq, Repr

/-- The record handed to `prisma.managedPosition.create` in
`createManagedPosition` (lines 110–127): status `active`, current price =
entry price, unrealized P&L = 0, thresholds from `calculatePrices`.
`newId` stands for the store-generated cuid. -/
def buildManagedPosition (params : CreateManagedPositionParams) (orderId : String)
    (entryPrice : ℚ) (newId : String) (now : Nat) : ManagedPosition :=
  let prices := calculatePrices entryPrice params.stopLossPct params.takeProfitPct params.side
  { id := newId
    symbol := params.symbol
    qty := params.qty
    entry_price := entryPrice
    entry_order_id := some orderId
    stop_loss_pct := params.stopLossPct
    take_profit_pct := params.takeProfitPct
    stop_loss_price := prices.1
    take_profit_price := prices.2
    trailing_stop := params.trailingStop
    status := ManagedPositionStatus.active
    current_price := some entryPrice
    unrealized_pl := some 0
    unrealized_plpc := some 0
    closed_price := none
    closed_reason := none
    exit_order_id := none
    created_at := now
    updated_at := now
    closed_at := none }

/-- `createManagedPosition` (lines 68–142).  The entry order is placed first
(no parameter validation happens in the service); the entry price is the
order's fill price if present, else `snapshot.latestTrade?.p || 0`; any
thrown collaborator error propagates to the caller (the `catch` re-throws).
Returns the result together with the trace of side effects performed. -/
def createManagedPosition (params : CreateManagedPositionParams)
    (orderRes : Except String Order) (snapRes : Except String Snapshot)
    (newId : String) (now : Nat) :
    Except String ManagedPosition × List CreateEff :=
  match orderRes with
  | Except.error e =>
      (Except.error e, [CreateEff.placeOrder params.symbol params.qty params.side])
  | Except.ok order =>
      match order.filled_avg_price with
      | some fillPrice =>
          let record := buildManagedPosition params order.id fillPrice newId now
          (Except.ok record,
           [CreateEff.placeOrder params.symbol params.qty params.side,
            CreateEff.dbCreate record])
      | none =>
          match snapRes with
          | Except.error e =>
              (Except.error e,
               [CreateEff.placeOrder params.symbol params.qty params.side,
                CreateEff.getSnapshot params.symbol])
          | Except.ok snap =>
              let entryPrice := snap.latestTradeP.getD 0
              let record := buildManagedPosition params order.id entryPrice newId now
              (Except.ok record,
               [CreateEff.placeOrder params.symbol params.qty params.side,
                CreateEff.getSnapshot params.symbol,
                CreateEff.dbCreate record])

/-- The zod request schema `createManagedPositionSchema` of
`src/app/api/positions/managed/route.ts`: symbol length 1–10, positive qty,
percentages in (0, 100]. -/
def createManagedPositionSchema (body : CreateManagedPositionParams) : Bool :=
  decide (1 ≤ body.symbol.length) && decide (body.symbol.length ≤ 10) &&
  decide (0 < body.qty) &&
  decide (0 < body.stopLossPct) && decide (body.stopLossPct ≤ 100) &&
  decide (0 < body.takeProfitPct) && decide (body.takeProfitPct ≤ 100)

/-- HTTP outcome of the route handler, reduced to status code and the
`success` flag of the JSON body. -/
structure ApiResponse where
  status : Nat
  success : Bool
deriving DecidableEq, Repr

/-- The `POST /api/positions/managed` handler: parse the body against
`createManagedPositionSchema` (a `ZodError` yields a 400 response before the
service is even constructed, so no side effect happens), then delegate to
`createManagedPosition` (500 on a thrown service error, 201 on success). -/
def POST (body : CreateManagedPositionParams)
    (orderRes : Except String Order) (snapRes : Except String Snapshot)
    (newId : String) (now : Nat) : ApiResponse × List CreateEff :=
  if createManagedPositionSchema body then
    match createManagedPosition body orderRes snapRes newId now with
    | (Except.ok _, effs) => ({ status := 201, success := true }, effs)
    | (Except.error _, effs) => ({ status := 500, success := false }, effs)
  else
    ({ status := 400, success := false }, [])

/-- The field updates of `updateManagedPosition` (lines 216–237): current
price, unrealized P&L (absolute and percent) and the touched `updated_at`. -/
def applyMarketUpdate (position : ManagedPosition) (currentPrice : ℚ) (now : Nat) :
    ManagedPosition :=
  { position with
    current_price := some currentPrice
    unrealized_pl := some ((currentPrice - position.entry_price) * position.qty)
    unrealized_plpc := some ((currentPrice - position.entry_price) / position.entry_price * 100)
    updated_at := now }

/-- `updateManagedPosition` (lines 216–237): throws `not found` on a missing
id, otherwise persists the market-data refresh unconditionally — there is no
status check. -/
def updateManagedPosition (positionQ : Option ManagedPosition)
    (currentPrice : ℚ) (now : Nat) : Except String ManagedPosition :=
  match positionQ with
  | none => Except.error "Managed position not found"
  | some position => Except.ok (applyMarketUpdate position currentPrice now)

/-- `updateTrailingStop` (lines 331–358): candidate
`currentPrice × (1 − stopLossPct/100)`; persist only when the candidate is
strictly greater than the stored stop-loss price, otherwise no write at all
(`@updatedAt` only moves on the write). A missing id is a silent return. -/
def updateTrailingStop (positionQ : Option ManagedPosition)
    (currentPrice : ℚ) (now : Nat) : Option ManagedPosition :=
  match positionQ with
  | none => none
  | some position =>
      let newStopLossPrice := currentPrice * (1 - position.stop_loss_pct / 100)
      if newStopLossPrice > position.stop_loss_price then
        some { position with stop_loss_price := newStopLossPrice, updated_at := now }
      else
        some position

/-- `closeManagedPosition` (lines 363–427).  On a live gateway: close price
by the ordered fallback `closedPrice || (fill price ? fill price :
(current_price || entry_price))`, then persist the terminal record.  On a
gateway throw: persist status `error` with the message in `closed_reason`
and re-raise.  Returns the result together with the record as persisted. -/
def closeManagedPosition (positionQ : Option ManagedPosition) (reason : String)
    (closedPrice : Option ℚ) (closeRes : Except String Order) (now : Nat) :
    Except String ManagedPosition × Option ManagedPosition :=
  match positionQ with
  | none => (Except.error "Managed position not found", none)
  | some position =>
      match closeRes with
      | Except.error msg =>
          let errored := { position with
            status := ManagedPositionStatus.error
            closed_reason := some ("Error: " ++ msg)
            updated_at := now }
          (Except.error msg, some errored)
      | Except.ok closeOrder =>
          let finalClosedPrice :=
            jsOrD closedPrice
              (match closeOrder.filled_avg_price with
               | some fillPrice => fillPrice
               | none => jsOrD position.current_price position.entry_price)
          let updated := { position with
            status := ManagedPositionStatus.closed
            closed_price := some finalClosedPrice
            closed_reason := some reason
            exit_order_id := some closeOrder.id
            closed_at := some now
            updated_at := now }
          (Except.ok updated, some updated)

/-- The `{triggered, reason?, action?}` result of `monitorPosition`. -/
structure MonitorResult where
  triggered : Bool
  reason : Option String := none
  action : Option String := none
deriving DecidableEq, Repr

/-- `monitorPosition` (lines 242–326).  Skip non-active/monitoring records;
fetch the snapshot (a throw is logged and re-raised by the `catch`); a falsy
current price (`latestTrade?.p || latestQuote?.ap` undefined or 0) returns
`{triggered := false}`; otherwise refresh market data, test the stop-loss
trigger (`current ≤ stop_loss_price`) before the take-profit trigger
(`current ≥ take_profit_price`), close on a trigger, else ratchet the
trailing stop when enabled.  Returns the result (or the re-raised error)
together with the record as persisted. -/
def monitorPosition (positionQ : Option ManagedPosition)
    (snapRes : Except String Snapshot) (closeRes : Except String Order)
    (now : Nat) : Except String MonitorResult × Option ManagedPosition :=
  match positionQ with
  | none => (Except.error "Managed position not found", none)
  | some position =>
      if position.status ≠ ManagedPositionStatus.active ∧
         position.status ≠ ManagedPositionStatus.monitoring then
        (Except.ok { triggered := false }, some position)
      else
        match snapRes with
        | Except.error e => (Except.error e, some position)
        | Except.ok snap =>
            match truthify (jsOr snap.latestTradeP snap.latestQuoteAp) with
            | none => (Except.ok { triggered := false }, some position)
            | some currentPrice =>
                let pos1 := applyMarketUpdate position currentPrice now
                if currentPrice ≤ pos1.stop_loss_price then
                  match closeManagedPosition (some pos1) "stop_loss_triggered"
                      (some currentPrice) closeRes now with
                  | (Except.ok _, post) =>
                      (Except.ok { triggered := true, reason := some "stop_loss",
                                   action := some "closed" }, post)
                  | (Except.error e, post) => (Except.error e, post)
                else if currentPrice ≥ pos1.take_profit_price then
                  match closeManagedPosition (some pos1) "take_profit_triggered"
                      (some currentPrice) closeRes now with
                  | (Except.ok _, post) =>
                      (Except.ok { triggered := true, reason := some "take_profit",
                                   action := some "closed" }, post)
                  | (Except.error e, post) => (Except.error e, post)
                else
                  let pos2Q :=
                    if pos1.trailing_stop then
                      updateTrailingStop (some pos1) currentPrice now
                    else
                      some pos1
                  (Except.ok { triggered := false }, pos2Q)

/-- The `{total, triggered, errors}` result of `monitorAllPositions`. -/
structure CycleResult where
  total : Nat
  triggered : Nat
  errors : Nat
deriving DecidableEq, Repr

/-- The `for` loop of `monitorAllPositions` (lines 443–456): evaluate each
position inside a per-record `try`/`catch`, counting triggered evaluations
and caught errors, and collecting each record's persisted post-state.
`snapFor`/`closeFor` give each symbol its collaborator outcome. -/
def monitorLoop (snapFor : String → Except String Snapshot)
    (closeFor : String → Except String Order) (now : Nat) :
    List ManagedPosition → Nat × Nat × List (Option ManagedPosition)
  | [] => (0, 0, [])
  | position :: rest =>
      let step := monitorPosition (some position) (snapFor position.symbol)
        (closeFor position.symbol) now
      let acc := monitorLoop snapFor closeFor now rest
      match step.1 with
      | Except.ok r =>
          (if r.triggered then acc.1 + 1 else acc.1, acc.2.1, step.2 :: acc.2.2)
      | Except.error _ => (acc.1, acc.2.1 + 1, step.2 :: acc.2.2)

/-- `monitorAllPositions` (lines 432–469) over the fetched list of
active/monitoring positions: run the loop and report
`{total := length, triggered, errors}` with the per-position post-states. -/
def monitorAllPositions (positions : List ManagedPosition)
    (snapFor : String → Except String Snapshot)
    (closeFor : String → Except String Order) (now : Nat) :
    CycleResult × List (Option ManagedPosition) :=
  let loop := monitorLoop snapFor closeFor now positions
  ({ total := positions.length, triggered := loop.1, errors := loop.2.1 }, loop.2.2)

/-- A sequence of trailing-stop adjustments: each tick is a (current price,
clock) pair fed to `updateTrailingStop`. -/
def adjustSequence (positionQ : Option ManagedPosition) (ticks : List (ℚ × Nat)) :
    Option ManagedPosition :=
  ticks.foldl (fun acc tick => updateTrailingStop acc tick.1 tick.2) positionQ

/-- The record persisted by the `catch` branch of `closeManagedPosition`. -/
def closeFailureRecord (position : ManagedPosition) (msg : String) (now : Nat) :
    ManagedPosition :=
  { position with
    status := ManagedPositionStatus.error
    closed_reason := some ("Error: " ++ msg)
    updated_at := now }

/-- The record persisted when `monitorPosition` triggers at price `cp` and the
close succeeds: the market-data refresh of `updateManagedPosition` followed by
the terminal fields of `closeManagedPosition`. -/
def closedRecord (position : ManagedPosition) (cp : ℚ) (orderId : String)
    (now : Nat) (reason : String) : ManagedPosition :=
  { position with
    current_price := some cp
    unrealized_pl := some ((cp - position.entry_price) * position.qty)
    unrealized_plpc := some ((cp - position.entry_price) / position.entry_price * 100)
    status := ManagedPositionStatus.closed
    closed_price := some cp
    closed_reason := some reason
    exit_order_id := some orderId
    closed_at := some now
    updated_at := now }

/-- A concrete active long position: entry 150, slPct 2, tpPct 5, thresholds
147 / 157.5, trailing stop enabled (the spec's Scenario A / E shape). -/
def trailPos : ManagedPosition :=
  { id := "mp-1"
    symbol := "AAPL"
    qty := 10
    entry_price := 150
    entry_order_id := some "ord-1"
    stop_loss_pct := 2
    take_profit_pct := 5
    stop_loss_price := 147
    take_profit_price := 315/2
    trailing_stop := true
    status := ManagedPositionStatus.active
    current_price := some 150
    unrealized_pl := some 0
    unrealized_plpc := some 0
    closed_price := none
    closed_reason := none
    exit_order_id := none
    created_at := 0
    updated_at := 0
    closed_at := none }

/-- `trailPos` after a trailing adjustment at price 160: stop 156.8. -/
def trailPos160 : ManagedPosition :=
  { trailPos with stop_loss_price := 784/5, updated_at := 1 }

/-- A concrete closed position derived from `trailPos`. -/
def closedPos : ManagedPosition :=
  { trailPos with
    status := ManagedPositionStatus.closed
    current_price := some 140
    closed_price := some 140
    closed_reason := some "take_profit_triggered"
    exit_order_id := some "ord-9"
    closed_at := some 2 }

/-- A concrete short position (created with side = sell): entry 100,
slPct 5 / tpPct 5, so stop 105 and take-profit 95 — both triggers hold at
any price in [95, 105]. -/
def shortPos : ManagedPosition :=
  { trailPos with
    id := "mp-2"
    symbol := "TSLA"
    entry_price := 100
    stop_loss_pct := 5
    take_profit_pct := 5
    stop_loss_price := 105
    take_profit_price := 95
    trailing_stop := false
    current_price := some 100 }

/-- A snapshot with neither a latest trade nor a latest quote. -/
def emptySnap : Snapshot := { latestTradeP := none, latestQuoteAp := none }

/-- A snapshot whose latest trade price is 145 (Scenario C). -/
def snap145 : Snapshot := { latestTradeP := some 145, latestQuoteAp := none }

/-- A snapshot whose latest trade price is 100. -/
def snap100 : Snapshot := { latestTradeP := some 100, latestQuoteAp := none }

/-- Valid creation parameters (Scenario A shape). -/
def noPriceParams : CreateManagedPositionParams :=
  { symbol := "AAPL", qty := 10, side := Side.buy, stopLossPct := 2, takeProfitPct := 5 }

/-- Malformed creation parameters: negative quantity. -/
def badParams : CreateManagedPositionParams :=
  { symbol := "AAPL", qty := -5, side := Side.buy, stopLossPct := 2, takeProfitPct := 5 }

/-- An entry order that reports no fill price. -/
def unfilledOrder : Order := { id := "ord-7", filled_avg_price := none }

/-- An entry order filled at 101. -/
def filledOrder : Order := { id := "ord-3", filled_avg_price := some 101 }

/-- A successful close order filled at 145. -/
def closeOrder145 : Order := { id := "ord-exit", filled_avg_price := some 145 }

/-- A snapshot with no latest trade but a quoted ask of 100. -/
def noTradeSnap : Snapshot := { latestTradeP := none, latestQuoteAp := some 100 }

/-- C3: `calculatePrices` returns, for side = buy (long),
`stopLoss = entry × (1 − slPct/100)` and `takeProfit = entry × (1 + tpPct/100)`,
and for side = sell (short) the mirrored formulas; consequently, for every
`entryPrice > 0`, `slPct > 0`, `tpPct > 0`, long thresholds satisfy
`stopLoss < entryPrice < takeProfit` and short thresholds satisfy
`takeProfit < entryPrice < stopLoss`. -/
theorem calculatePrices_spec (e sl tp : ℚ) (he : 0 < e) (hsl : 0 < sl) (htp : 0 < tp) :
    calculatePrices e sl tp Side.buy = (e * (1 - sl / 100), e * (1 + tp / 100)) ∧
    calculatePrices e sl tp Side.sell = (e * (1 + sl / 100), e * (1 - tp / 100)) ∧
    (calculatePrices e sl tp Side.buy).1 < e ∧
    e < (calculatePrices e sl tp Side.buy).2 ∧
    (calculatePrices e sl tp Side.sell).2 < e ∧
    e < (calculatePrices e sl tp Side.sell).1 := by
  refine ⟨rfl, rfl, ?_, ?_, ?_, ?_⟩ <;> simp only [calculatePrices] <;> nlinarith

/-- Witness for C3 at the spec's Scenario A (entry 150, slPct 2, tpPct 5:
thresholds 147 and 157.5) and Scenario B (entry 200, slPct 3, tpPct 4:
short thresholds 206 and 192). -/
theorem calculatePrices_spec_witness :
    calculatePrices 150 2 5 Side.buy = (147, 315/2) ∧
    calculatePrices 200 3 4 Side.sell = (206, 192) := by
  have hA := calculatePrices_spec 150 2 5 (by norm_num) (by norm_num) (by norm_num)
  have hB := calculatePrices_spec 200 3 4 (by norm_num) (by norm_num) (by norm_num)
  refine ⟨hA.1.trans ?_, hB.2.1.trans ?_⟩ <;> norm_num

/-- One `updateTrailingStop` call on a present record, as an if-expression. -/
theorem updateTrailingStop_some (p : ManagedPosition) (c : ℚ) (n : Nat) :
    updateTrailingStop (some p) c n =
      some (if p.stop_loss_price < c * (1 - p.stop_loss_pct / 100) then
              { p with stop_loss_price := c * (1 - p.stop_loss_pct / 100), updated_at := n }
            else p) := by
  by_cases h : p.stop_loss_price < c * (1 - p.stop_loss_pct / 100) <;>
    simp [updateTrailingStop, h]

/-- `updateTrailingStop` never decreases the stored stop-loss price. -/
theorem updateTrailingStop_mono (p : ManagedPosition) (c : ℚ) (n : Nat)
    (q : ManagedPosition) (h : updateTrailingStop (some p) c n = some q) :
    p.stop_loss_price ≤ q.stop_loss_price := by
  rw [updateTrailingStop_some] at h
  by_cases hc : p.stop_loss_price < c * (1 - p.stop_loss_pct / 100)
  · rw [if_pos hc] at h
    cases Option.some_injective _ h
    exact le_of_lt hc
  · rw [if_neg hc] at h
    cases Option.some_injective _ h
    exact le_refl _

/-- `updateTrailingStop` does not change the stored stop-loss percentage. -/
theorem updateTrailingStop_pct (p : ManagedPosition) (c : ℚ) (n : Nat)
    (q : ManagedPosition) (h : updateTrailingStop (some p) c n = some q) :
    q.stop_loss_pct = p.stop_loss_pct := by
  rw [updateTrailingStop_some] at h
  by_cases hc : p.stop_loss_price < c * (1 - p.stop_loss_pct / 100)
  · rw [if_pos hc] at h
    cases Option.some_injective _ h
    rfl
  · rw [if_neg hc] at h
    cases Option.some_injective _ h
    rfl

/-- After `updateTrailingStop` at price `c`, the stored stop-loss price is at
least the candidate `c × (1 − slPct/100)`. -/
theorem updateTrailingStop_ge_candidate (p : ManagedPosition) (c : ℚ) (n : Nat)
    (q : ManagedPosition) (h : updateTrailingStop (some p) c n = some q) :
    c * (1 - p.stop_loss_pct / 100) ≤ q.stop_loss_price := by
  rw [updateTrailingStop_some] at h
  by_cases hc : p.stop_loss_price < c * (1 - p.stop_loss_pct / 100)
  · rw [if_pos hc] at h
    cases Option.some_injective _ h
    exact le_refl _
  · rw [if_neg hc] at h
    cases Option.some_injective _ h
    exact le_of_not_lt hc

/-- The stored stop-loss price is monotone along any adjustment sequence. -/
theorem adjustSequence_mono (p : ManagedPosition) (ticks : List (ℚ × Nat))
    (q : ManagedPosition) (h : adjustSequence (some p) ticks = some q) :
    p.stop_loss_price ≤ q.stop_loss_price := by
  induction ticks generalizing p with
  | nil =>
      simp only [adjustSequence, List.foldl_nil] at h
      cases Option.some_injective _ h
      exact le_refl _
  | cons tick rest ih =>
      simp only [adjustSequence, List.foldl_cons] at h
      rw [updateTrailingStop_some] at h
      exact le_trans
        (updateTrailingStop_mono p tick.1 tick.2 _ (updateTrailingStop_some p tick.1 tick.2))
        (ih _ h)

/-- C4: `updateTrailingStop` computes the candidate
`currentPrice × (1 − stopLossPct/100)` and persists it exactly when it
exceeds the stored stop-loss price, performing no write otherwise; the stored
stop-loss price is monotonically non-decreasing across any sequence of
adjustments, and a call at a price no higher than the previous call's price
leaves the record unchanged (for a stop-loss percentage ≤ 100). -/
theorem updateTrailingStop_spec :
    (∀ (p : ManagedPosition) (c : ℚ) (n : Nat),
        p.stop_loss_price < c * (1 - p.stop_loss_pct / 100) →
        updateTrailingStop (some p) c n =
          some { p with stop_loss_price := c * (1 - p.stop_loss_pct / 100), updated_at := n }) ∧
    (∀ (p : ManagedPosition) (c : ℚ) (n : Nat),
        ¬ p.stop_loss_price < c * (1 - p.stop_loss_pct / 100) →
        updateTrailingStop (some p) c n = some p) ∧
    (∀ (p : ManagedPosition) (ticks : List (ℚ × Nat)) (q : ManagedPosition),
        adjustSequence (some p) ticks = some q →
        p.stop_loss_price ≤ q.stop_loss_price) ∧
    (∀ (p q : ManagedPosition) (c₁ c₂ : ℚ) (n₁ n₂ : Nat),
        p.stop_loss_pct ≤ 100 → c₂ ≤ c₁ →
        updateTrailingStop (some p) c₁ n₁ = some q →
        updateTrailingStop (some q) c₂ n₂ = some q) := by
  refine ⟨?_, ?_, adjustSequence_mono, ?_⟩
  · intro p c n h
    simp [updateTrailingStop, h]
  · intro p c n h
    simp [updateTrailingStop, h]
  · intro p q c₁ c₂ n₁ n₂ hpct hfall h₁
    have hk : (0 : ℚ) ≤ 1 - p.stop_loss_pct / 100 := by linarith
    have hcand : c₂ * (1 - q.stop_loss_pct / 100) ≤ q.stop_loss_price := by
      rw [updateTrailingStop_pct p c₁ n₁ q h₁]
      calc c₂ * (1 - p.stop_loss_pct / 100)
          ≤ c₁ * (1 - p.stop_loss_pct / 100) := by nlinarith
        _ ≤ q.stop_loss_price := updateTrailingStop_ge_candidate p c₁ n₁ q h₁
    simp [updateTrailingStop, not_lt.mpr hcand]

/-- Witness for C4: the spec's Scenario E — entry 150, slPct 2, stop 147;
adjusting at 160 raises the stop to 156.8, a following adjustment at the
lower price 155 leaves it unchanged. -/
theorem updateTrailingStop_spec_witness :
    updateTrailingStop (some trailPos) 160 1 = some trailPos160 ∧
    updateTrailingStop (some trailPos160) 155 2 = some trailPos160 := by
  have h1 : updateTrailingStop (some trailPos) 160 1 = some trailPos160 := by
    have h := updateTrailingStop_spec.1 trailPos 160 1 (by norm_num [trailPos])
    rw [h]
    congr 1
    simp only [trailPos, trailPos160]
    norm_num
  exact ⟨h1, updateTrailingStop_spec.2.2.2 trailPos trailPos160 160 155 1 2
    (by norm_num [trailPos]) (by norm_num) h1⟩

/-- C5: when the gateway close call throws, `closeManagedPosition` re-raises
the error and persists status `error` with the failure message in
`closed_reason`; the persisted record is not `closed` and its exit-order
reference is untouched. -/
theorem closeManagedPosition_gateway_failure (position : ManagedPosition)
    (reason : String) (closedPrice : Option ℚ) (msg : String) (now : Nat) :
    closeManagedPosition (some position) reason closedPrice (Except.error msg) now =
      (Except.error msg, some (closeFailureRecord position msg now)) ∧
    (closeFailureRecord position msg now).status = ManagedPositionStatus.error ∧
    (closeFailureRecord position msg now).status ≠ ManagedPositionStatus.closed ∧
    (closeFailureRecord position msg now).closed_reason = some ("Error: " ++ msg) ∧
    (closeFailureRecord position msg now).exit_order_id = position.exit_order_id := by
  exact ⟨rfl, rfl, by simp [closeFailureRecord], rfl, rfl⟩

/-- An active or monitoring status falsifies the skip condition of
`monitorPosition`. -/
theorem open_status_not_skipped (position : ManagedPosition)
    (hstatus : position.status = ManagedPositionStatus.active ∨
               position.status = ManagedPositionStatus.monitoring) :
    ¬ (position.status ≠ ManagedPositionStatus.active ∧
       position.status ≠ ManagedPositionStatus.monitoring) := by
  rcases hstatus with h | h <;> simp [h]

/-- C2 (amended): for an active or monitoring position, `monitorPosition`
returns `{triggered := false}` without modifying the record when the provider
responds but yields no usable price; but when the provider *throws*, the
error is logged and re-raised to the caller (it is the cycle orchestrator
that catches it per position), so `evaluate` does raise in that case. -/
theorem monitorPosition_provider_failure (position : ManagedPosition)
    (hstatus : position.status = ManagedPositionStatus.active ∨
               position.status = ManagedPositionStatus.monitoring) :
    (∀ (snap : Snapshot) (closeRes : Except String Order) (now : Nat),
        truthify (jsOr snap.latestTradeP snap.latestQuoteAp) = none →
        monitorPosition (some position) (Except.ok snap) closeRes now =
          (Except.ok { triggered := false }, some position)) ∧
    (∀ (e : String) (closeRes : Except String Order) (now : Nat),
        monitorPosition (some position) (Except.error e) closeRes now =
          (Except.error e, some position)) := by
  have hopen := open_status_not_skipped position hstatus
  constructor
  · intro snap closeRes now hnone
    simp [monitorPosition, hopen, hnone]
  · intro e closeRes now
    simp [monitorPosition, hopen]

/-- Witness for C2's amended claim: a concrete active position with an empty
snapshot yields `{triggered := false}` and an unchanged record. -/
theorem monitorPosition_provider_failure_witness :
    monitorPosition (some trailPos) (Except.ok emptySnap) (Except.error "x") 3 =
      (Except.ok { triggered := false }, some trailPos) :=
  (monitorPosition_provider_failure trailPos (Or.inl rfl)).1 emptySnap
    (Except.error "x") 3 (by simp [emptySnap, jsOr, truthify])

/-- Counterexample to C2 as stated: at a concrete active position whose
price-provider call throws, `monitorPosition` re-raises the error instead of
returning `{triggered := false}`. -/
theorem monitorPosition_provider_throw_counterexample :
    trailPos.status = ManagedPositionStatus.active ∧
    (monitorPosition (some trailPos) (Except.error "network timeout")
        (Except.error "x") 3).1 = Except.error "network timeout" ∧
    (monitorPosition (some trailPos) (Except.error "network timeout")
        (Except.error "x") 3).1 ≠ Except.ok { triggered := false } := by
  refine ⟨rfl, ?_, ?_⟩ <;> simp [monitorPosition, trailPos]

/-- `calculatePrices` at entry price 0 yields zero thresholds. -/
theorem calculatePrices_zero_entry (sl tp : ℚ) (side : Side) :
    calculatePrices 0 sl tp side = (0, 0) := by
  cases side <;> simp [calculatePrices]

/-- C1 (amended): when the entry order reports no fill price and the fallback
snapshot query yields no latest-trade price, `createManagedPosition` does not
fail: the entry price defaults to 0 and a record with `entry_price = 0` (and
hence zero stop-loss and take-profit prices) is persisted with status
`active`; no `PriceUnavailable` error exists anywhere in the code. -/
theorem createManagedPosition_missing_price (params : CreateManagedPositionParams)
    (order : Order) (snap : Snapshot) (newId : String) (now : Nat)
    (hfill : order.filled_avg_price = none) (htrade : snap.latestTradeP = none) :
    (createManagedPosition params (Except.ok order) (Except.ok snap) newId now).1 =
      Except.ok (buildManagedPosition params order.id 0 newId now) ∧
    (buildManagedPosition params order.id 0 newId now).entry_price = 0 ∧
    (buildManagedPosition params order.id 0 newId now).stop_loss_price = 0 ∧
    (buildManagedPosition params order.id 0 newId now).take_profit_price = 0 ∧
    (buildManagedPosition params order.id 0 newId now).status =
      ManagedPositionStatus.active ∧
    CreateEff.dbCreate (buildManagedPosition params order.id 0 newId now) ∈
      (createManagedPosition params (Except.ok order) (Except.ok snap) newId now).2 := by
  refine ⟨?_, rfl, ?_, ?_, rfl, ?_⟩
  · simp [createManagedPosition, hfill, htrade]
  · simp [buildManagedPosition, calculatePrices_zero_entry]
  · simp [buildManagedPosition, calculatePrices_zero_entry]
  · simp [createManagedPosition, hfill, htrade]

/-- Witness for C1's amended claim at concrete inputs. -/
theorem createManagedPosition_missing_price_witness :
    (createManagedPosition noPriceParams (Except.ok unfilledOrder)
        (Except.ok noTradeSnap) "mp-9" 5).1 =
      Except.ok (buildManagedPosition noPriceParams "ord-7" 0 "mp-9" 5) ∧
    (buildManagedPosition noPriceParams "ord-7" 0 "mp-9" 5).entry_price = 0 :=
  have h := createManagedPosition_missing_price noPriceParams unfilledOrder
    noTradeSnap "mp-9" 5 rfl rfl
  ⟨h.1, h.2.1⟩

/-- Counterexample to C1 as stated: with a concrete unfilled entry order and a
snapshot carrying no latest trade, the operation succeeds (no
`PriceUnavailable` failure), a record is persisted (`dbCreate` happens), and
that successful creation has entry price 0 — not a positive one. -/
theorem createManagedPosition_no_price_counterexample :
    (createManagedPosition noPriceParams (Except.ok unfilledOrder)
        (Except.ok noTradeSnap) "mp-9" 5).1 =
      Except.ok (buildManagedPosition noPriceParams "ord-7" 0 "mp-9" 5) ∧
    (buildManagedPosition noPriceParams "ord-7" 0 "mp-9" 5).entry_price = 0 ∧
    CreateEff.dbCreate (buildManagedPosition noPriceParams "ord-7" 0 "mp-9" 5) ∈
      (createManagedPosition noPriceParams (Except.ok unfilledOrder)
        (Except.ok noTradeSnap) "mp-9" 5).2 := by
  refine ⟨rfl, rfl, ?_⟩
  simp [createManagedPosition, noPriceParams, unfilledOrder, noTradeSnap]

/-- C8 (amended): malformed creation parameters are rejected by the zod
schema in the `POST /api/positions/managed` route handler before any side
effect — the service is never invoked, no order is placed and no record is
created; `createManagedPosition` itself performs no validation and places
the entry order on every call, whatever the parameters. -/
theorem createManagedPosition_validation_at_route :
    (∀ (body : CreateManagedPositionParams) (orderRes : Except String Order)
        (snapRes : Except String Snapshot) (newId : String) (now : Nat),
        createManagedPositionSchema body = false →
        POST body orderRes snapRes newId now =
          ({ status := 400, success := false }, [])) ∧
    (∀ (body : CreateManagedPositionParams) (orderRes : Except String Order)
        (snapRes : Except String Snapshot) (newId : String) (now : Nat),
        CreateEff.placeOrder body.symbol body.qty body.side ∈
          (createManagedPosition body orderRes snapRes newId now).2) := by
  constructor
  · intro body orderRes snapRes newId now h
    simp [POST, h]
  · intro body orderRes snapRes newId now
    rcases orderRes with e | order
    · simp [createManagedPosition]
    · rcases hfill : order.filled_avg_price with _ | fillPrice
      · rcases snapRes with e | snap <;> simp [createManagedPosition, hfill]
      · simp [createManagedPosition, hfill]

/-- Witness for C8's amended claim: a request with qty = −5 fails the schema
and the route answers 400 with an empty side-effect trace. -/
theorem createManagedPosition_validation_at_route_witness :
    POST badParams (Except.ok unfilledOrder) (Except.ok noTradeSnap) "mp-9" 5 =
      ({ status := 400, success := false }, []) :=
  createManagedPosition_validation_at_route.1 badParams (Except.ok unfilledOrder)
    (Except.ok noTradeSnap) "mp-9" 5 (by norm_num [createManagedPositionSchema, badParams])

/-- Counterexample to C8 as stated: called directly with the malformed
parameters qty = −5, `createManagedPosition` raises no `ValidationError` — it
places the entry order (a side effect) and returns a created record. -/
theorem createManagedPosition_no_validation_counterexample :
    createManagedPositionSchema badParams = false ∧
    (createManagedPosition badParams (Except.ok filledOrder)
        (Except.ok noTradeSnap) "mp-8" 4).1 =
      Except.ok (buildManagedPosition badParams "ord-3" 101 "mp-8" 4) ∧
    CreateEff.placeOrder "AAPL" (-5) Side.buy ∈
      (createManagedPosition badParams (Except.ok filledOrder)
        (Except.ok noTradeSnap) "mp-8" 4).2 := by
  refine ⟨by norm_num [createManagedPositionSchema, badParams], rfl, ?_⟩
  simp [createManagedPosition, badParams, filledOrder]

/-- A truthy current price is nonzero. -/
theorem truthify_ne_zero (a : Option ℚ) (cp : ℚ) (h : truthify a = some cp) :
    cp ≠ 0 := by
  rcases a with _ | p
  · simp [truthify] at h
  · by_cases hp : p = 0
    · simp [truthify, hp] at h
    · simp [truthify, hp] at h
      exact h ▸ hp

/-- Stop-loss branch of `monitorPosition`: for an open position with a truthy
current price at or below the stored stop-loss price and a live gateway, the
evaluation closes the record with reason tag `stop_loss_triggered` and
reports `{triggered := true, reason := "stop_loss", action := "closed"}`. -/
theorem monitorPosition_stopLoss_branch (position : ManagedPosition)
    (snap : Snapshot) (closeOrder : Order) (now : Nat) (cp : ℚ)
    (hstatus : position.status = ManagedPositionStatus.active ∨
               position.status = ManagedPositionStatus.monitoring)
    (hcp : truthify (jsOr snap.latestTradeP snap.latestQuoteAp) = some cp)
    (hsl : cp ≤ position.stop_loss_price) :
    monitorPosition (some position) (Except.ok snap) (Except.ok closeOrder) now =
      (Except.ok { triggered := true, reason := some "stop_loss", action := some "closed" },
       some (closedRecord position cp closeOrder.id now "stop_loss_triggered")) := by
  have hopen := open_status_not_skipped position hstatus
  have hcp0 : cp ≠ 0 := truthify_ne_zero _ cp hcp
  simp only [monitorPosition, hcp]
  rw [if_neg hopen]
  simp only [applyMarketUpdate]
  rw [if_pos hsl]
  simp [closeManagedPosition, jsOrD, hcp0, closedRecord]

/-- Take-profit branch of `monitorPosition`: for an open position with a
truthy current price strictly above the stop-loss price and at or above the
take-profit price, with a live gateway, the evaluation closes the record with
reason tag `take_profit_triggered` and reports the take-profit result. -/
theorem monitorPosition_takeProfit_branch (position : ManagedPosition)
    (snap : Snapshot) (closeOrder : Order) (now : Nat) (cp : ℚ)
    (hstatus : position.status = ManagedPositionStatus.active ∨
               position.status = ManagedPositionStatus.monitoring)
    (hcp : truthify (jsOr snap.latestTradeP snap.latestQuoteAp) = some cp)
    (hsl : position.stop_loss_price < cp)
    (htp : position.take_profit_price ≤ cp) :
    monitorPosition (some position) (Except.ok snap) (Except.ok closeOrder) now =
      (Except.ok { triggered := true, reason := some "take_profit", action := some "closed" },
       some (closedRecord position cp closeOrder.id now "take_profit_triggered")) := by
  have hopen := open_status_not_skipped position hstatus
  have hcp0 : cp ≠ 0 := truthify_ne_zero _ cp hcp
  simp only [monitorPosition, hcp]
  rw [if_neg hopen]
  simp only [applyMarketUpdate]
  rw [if_neg (not_le.mpr hsl), if_pos htp]
  simp [closeManagedPosition, jsOrD, hcp0, closedRecord]

/-- No-trigger branch of `monitorPosition`: a truthy current price strictly
between the thresholds reports `{triggered := false}` after the market-data
refresh (and the trailing adjustment when enabled). -/
theorem monitorPosition_noTrigger_branch (position : ManagedPosition)
    (snap : Snapshot) (closeRes : Except String Order) (now : Nat) (cp : ℚ)
    (hstatus : position.status = ManagedPositionStatus.active ∨
               position.status = ManagedPositionStatus.monitoring)
    (hcp : truthify (jsOr snap.latestTradeP snap.latestQuoteAp) = some cp)
    (hsl : position.stop_loss_price < cp)
    (htp : cp < position.take_profit_price) :
    monitorPosition (some position) (Except.ok snap) closeRes now =
      (Except.ok { triggered := false },
       if position.trailing_stop then
         updateTrailingStop (some (applyMarketUpdate position cp now)) cp now
       else
         some (applyMarketUpdate position cp now)) := by
  have hopen := open_status_not_skipped position hstatus
  simp only [monitorPosition, hcp]
  rw [if_neg hopen]
  simp only [applyMarketUpdate]
  rw [if_neg (not_le.mpr hsl), if_neg (not_le.mpr htp)]

/-- C7: for an open position with an available (truthy) current price and a
live gateway, `monitorPosition` triggers at `current ≤ stopLossPrice`
(closing the record with the `stop_loss_triggered` reason tag and returning
`{triggered := true, reason := "stop_loss", action := "closed"}`), triggers at
`current ≥ takeProfitPrice` with reason `"take_profit"`, and otherwise
returns `{triggered := false}`; in the triggered cases the persisted record
ends with status `closed`. -/
theorem monitorPosition_trigger_spec (position : ManagedPosition)
    (snap : Snapshot) (closeOrder : Order) (now : Nat) (cp : ℚ)
    (hstatus : position.status = ManagedPositionStatus.active ∨
               position.status = ManagedPositionStatus.monitoring)
    (hcp : truthify (jsOr snap.latestTradeP snap.latestQuoteAp) = some cp) :
    (cp ≤ position.stop_loss_price →
      monitorPosition (some position) (Except.ok snap) (Except.ok closeOrder) now =
        (Except.ok { triggered := true, reason := some "stop_loss", action := some "closed" },
         some (closedRecord position cp closeOrder.id now "stop_loss_triggered")) ∧
      (closedRecord position cp closeOrder.id now "stop_loss_triggered").status =
        ManagedPositionStatus.closed ∧
      (closedRecord position cp closeOrder.id now "stop_loss_triggered").closed_price =
        some cp) ∧
    (position.stop_loss_price < cp → position.take_profit_price ≤ cp →
      monitorPosition (some position) (Except.ok snap) (Except.ok closeOrder) now =
        (Except.ok { triggered := true, reason := some "take_profit", action := some "closed" },
         some (closedRecord position cp closeOrder.id now "take_profit_triggered")) ∧
      (closedRecord position cp closeOrder.id now "take_profit_triggered").status =
        ManagedPositionStatus.closed ∧
      (closedRecord position cp closeOrder.id now "take_profit_triggered").closed_price =
        some cp) ∧
    (position.stop_loss_price < cp → cp < position.take_profit_price →
      (monitorPosition (some position) (Except.ok snap) (Except.ok closeOrder) now).1 =
        Except.ok { triggered := false }) := by
  refine ⟨?_, ?_, ?_⟩
  · intro hsl
    exact ⟨monitorPosition_stopLoss_branch position snap closeOrder now cp hstatus hcp hsl,
           rfl, rfl⟩
  · intro hsl htp
    exact ⟨monitorPosition_takeProfit_branch position snap closeOrder now cp hstatus hcp hsl htp,
           rfl, rfl⟩
  · intro hsl htp
    rw [monitorPosition_noTrigger_branch position snap (Except.ok closeOrder) now cp
      hstatus hcp hsl htp]

/-- Witness for C7: the spec's Scenario C — active long position with stop
147, current price 145 ≤ 147 → triggered with reason `"stop_loss"`, persisted
record closed. -/
theorem monitorPosition_trigger_spec_witness :
    monitorPosition (some trailPos) (Except.ok snap145) (Except.ok closeOrder145) 7 =
      (Except.ok { triggered := true, reason := some "stop_loss", action := some "closed" },
       some (closedRecord trailPos 145 "ord-exit" 7 "stop_loss_triggered")) ∧
    (closedRecord trailPos 145 "ord-exit" 7 "stop_loss_triggered").status =
      ManagedPositionStatus.closed :=
  have h := (monitorPosition_trigger_spec trailPos snap145 closeOrder145 7 145
    (Or.inl rfl) (by norm_num [snap145, jsOr, truthify])).1
    (by norm_num [trailPos])
  ⟨h.1, h.2.1⟩

/-- C10: when both trigger conditions hold in one evaluation pass
(`current ≤ stopLossPrice` and `current ≥ takeProfitPrice` — satisfiable for
short positions, whose stored stop-loss price exceeds their take-profit
price), `monitorPosition` closes with the stop-loss reason: the stop-loss
check is performed first and takes priority. -/
theorem monitorPosition_stop_loss_priority (position : ManagedPosition)
    (snap : Snapshot) (closeOrder : Order) (now : Nat) (cp : ℚ)
    (hstatus : position.status = ManagedPositionStatus.active ∨
               position.status = ManagedPositionStatus.monitoring)
    (hcp : truthify (jsOr snap.latestTradeP snap.latestQuoteAp) = some cp)
    (hsl : cp ≤ position.stop_loss_price)
    (_htp : position.take_profit_price ≤ cp) :
    monitorPosition (some position) (Except.ok snap) (Except.ok closeOrder) now =
      (Except.ok { triggered := true, reason := some "stop_loss", action := some "closed" },
       some (closedRecord position cp closeOrder.id now "stop_loss_triggered")) ∧
    (closedRecord position cp closeOrder.id now "stop_loss_triggered").closed_reason =
      some "stop_loss_triggered" :=
  ⟨monitorPosition_stopLoss_branch position snap closeOrder now cp hstatus hcp hsl, rfl⟩

/-- Witness for C10: a concrete short position (stop 105, take-profit 95) at
current price 100 satisfies both trigger comparisons and closes with the
stop-loss reason. -/
theorem monitorPosition_stop_loss_priority_witness :
    monitorPosition (some shortPos) (Except.ok snap100) (Except.ok closeOrder145) 9 =
      (Except.ok { triggered := true, reason := some "stop_loss", action := some "closed" },
       some (closedRecord shortPos 100 "ord-exit" 9 "stop_loss_triggered")) :=
  (monitorPosition_stop_loss_priority shortPos snap100 closeOrder145 9 100
    (Or.inl rfl) (by norm_num [snap100, jsOr, truthify])
    (by norm_num [shortPos, trailPos]) (by norm_num [shortPos, trailPos])).1

/-- C9 (amended): the threshold evaluator leaves a record with status
`closed` untouched (idempotent skip), but `updateManagedPosition` and
`closeManagedPosition` perform no status check: the market-data update
rewrites a closed record's current price, and a close call on a closed
record re-invokes the gateway and rewrites its terminal fields. -/
theorem closed_record_mutability (position : ManagedPosition)
    (hclosed : position.status = ManagedPositionStatus.closed) :
    (∀ (snapRes : Except String Snapshot) (closeRes : Except String Order) (now : Nat),
        monitorPosition (some position) snapRes closeRes now =
          (Except.ok { triggered := false }, some position)) ∧
    (∀ (cp : ℚ) (now : Nat),
        updateManagedPosition (some position) cp now =
          Except.ok (applyMarketUpdate position cp now) ∧
        (applyMarketUpdate position cp now).current_price = some cp ∧
        (applyMarketUpdate position cp now).status = ManagedPositionStatus.closed) ∧
    (∀ (reason : String) (cpO : Option ℚ) (closeOrder : Order) (now : Nat), ∃ q,
        closeManagedPosition (some position) reason cpO (Except.ok closeOrder) now =
          (Except.ok q, some q) ∧
        q.closed_reason = some reason ∧
        q.exit_order_id = some closeOrder.id ∧
        q.closed_at = some now) := by
  refine ⟨?_, ?_, ?_⟩
  · intro snapRes closeRes now
    simp [monitorPosition, hclosed]
  · intro cp now
    exact ⟨rfl, rfl, hclosed⟩
  · intro reason cpO closeOrder now
    exact ⟨_, rfl, rfl, rfl, rfl⟩

/-- Witness for C9's amended claim at a concrete closed record: the evaluator
skips it, while the market-data update still overwrites its current price. -/
theorem closed_record_mutability_witness :
    monitorPosition (some closedPos) (Except.error "boom") (Except.error "x") 1 =
      (Except.ok { triggered := false }, some closedPos) ∧
    updateManagedPosition (some closedPos) 123 7 =
      Except.ok (applyMarketUpdate closedPos 123 7) ∧
    (applyMarketUpdate closedPos 123 7).current_price = some 123 ∧
    (applyMarketUpdate closedPos 123 7).status = ManagedPositionStatus.closed :=
  have h := closed_record_mutability closedPos rfl
  ⟨h.1 (Except.error "boom") (Except.error "x") 1, h.2.1 123 7⟩

/-- Counterexample to C9 as stated: `updateManagedPosition` — the exposed
update operation — changes the `current_price` field (not a realized-result
backfill) of a concrete record whose status is `closed`. -/
theorem closed_record_update_counterexample :
    closedPos.status = ManagedPositionStatus.closed ∧
    updateManagedPosition (some closedPos) 123 7 =
      Except.ok (applyMarketUpdate closedPos 123 7) ∧
    (applyMarketUpdate closedPos 123 7).current_price ≠ closedPos.current_price := by
  refine ⟨rfl, rfl, ?_⟩
  simp [applyMarketUpdate, closedPos]

/-- The recursive per-position loop of `monitorAllPositions` computes: the
triggered count, the caught-error count, and the list of per-position
post-states — each position's outcome depending only on its own record and
its own collaborator results. -/
theorem monitorLoop_counts (snapFor : String → Except String Snapshot)
    (closeFor : String → Except String Order) (now : Nat)
    (positions : List ManagedPosition) :
    monitorLoop snapFor closeFor now positions =
      (List.countP (fun position =>
          match (monitorPosition (some position) (snapFor position.symbol)
              (closeFor position.symbol) now).1 with
          | Except.ok r => r.triggered
          | Except.error _ => false) positions,
       List.countP (fun position =>
          match (monitorPosition (some position) (snapFor position.symbol)
              (closeFor position.symbol) now).1 with
          | Except.ok _ => false
          | Except.error _ => true) positions,
       positions.map (fun position =>
          (monitorPosition (some position) (snapFor position.symbol)
            (closeFor position.symbol) now).2)) := by
  induction positions with
  | nil => rfl
  | cons position rest ih =>
      simp only [monitorLoop, ih, List.countP_cons, List.map_cons]
      rcases h : (monitorPosition (some position) (snapFor position.symbol)
          (closeFor position.symbol) now).1 with e | r
      · simp [h]
      · rcases hr : r.triggered <;> simp [h, hr]

/-- C6: `monitorAllPositions` evaluates every fetched position inside a
per-record error boundary: an evaluation that raises is counted in `errors`
without stopping the loop, every position's persisted post-state is exactly
what its own evaluation produces (independent of the other positions), and
the result reports `total` = number fetched, `triggered` = number of
evaluations reporting `triggered = true`, `errors` = number of evaluations
that raised. -/
theorem monitorAllPositions_spec (positions : List ManagedPosition)
    (snapFor : String → Except String Snapshot)
    (closeFor : String → Except String Order) (now : Nat) :
    (monitorAllPositions positions snapFor closeFor now).1.total = positions.length ∧
    (monitorAllPositions positions snapFor closeFor now).1.triggered =
      List.countP (fun position =>
        match (monitorPosition (some position) (snapFor position.symbol)
            (closeFor position.symbol) now).1 with
        | Except.ok r => r.triggered
        | Except.error _ => false) positions ∧
    (monitorAllPositions positions snapFor closeFor now).1.errors =
      List.countP (fun position =>
        match (monitorPosition (some position) (snapFor position.symbol)
            (closeFor position.symbol) now).1 with
        | Except.ok _ => false
        | Except.error _ => true) positions ∧
    (monitorAllPositions positions snapFor closeFor now).2 =
      positions.map (fun position =>
        (monitorPosition (some position) (snapFor position.symbol)
          (closeFor position.symbol) now).2) := by
  refine ⟨rfl, ?_, ?_, ?_⟩ <;> simp [monitorAllPositions, monitorLoop_counts]
